import Mathlib

/-!
Verification of the decode-submission scheduler and presentation-timing
engine of the moonlight-harmony video pipeline
(`src/nativelib/src/main/cpp/video_decoder.cpp`,
`src/nativelib/src/main/cpp/native_render.cpp`).

The C++ code is shallowly embedded: machine integers become `Int`/`Nat`
(the quantities involved — frame counters, sizes, millisecond clocks —
stay far below 2^63 in every scenario considered, so wrap-around never
occurs), `double` statistics become `ℚ`, the wall clock is passed in as
an explicit argument, and the decode engine (OH_VideoDecoder_*) is an
oracle whose per-call responses are inputs of the model.  Buffer-slot
ownership is tracked through an explicit event trace.
-/

namespace MoonlightDecode

/-- `VideoFrameType` from video_decoder.h (I_FRAME / P_FRAME). -/
inductive VideoFrameType where
  | iFrame
  | pFrame
deriving DecidableEq, Repr

/-- `DecoderMode` from video_decoder.h (ASYNC = 0, SYNC = 1). -/
inductive DecoderMode where
  | async
  | sync
deriving DecidableEq, Repr

/-- `VideoDecoder::PendingFrame` (video_decoder.h): the fallback-queue
element.  The byte payload is abstracted to its length `dataSize`
(only the size takes part in any control flow or statistic). -/
structure PendingFrame where
  dataSize : Nat
  frameNumber : Int
  frameType : VideoFrameType
  timestamp : Int
  hostProcessingLatency : Nat
deriving DecidableEq, Repr

/-- `VideoDecoderStats` (video_decoder.h).  `double` fields are modelled
as `ℚ`; all the paths verified here perform only exact arithmetic on
values where the C++ `double` computation is itself exact or where only
the integer counters are consulted. -/
structure VideoDecoderStats where
  totalFrames : Nat
  decodedFrames : Nat
  droppedFrames : Nat
  averageDecodeTimeMs : ℚ
  maxDecodeTimeMs : ℚ
  lastFrameCount : Nat
  lastFpsCalculationTime : Int
  currentFps : ℚ
  lastDecodedFrameCount : Nat
  lastRenderedFpsCalculationTime : Int
  renderedFps : ℚ
  totalBytesReceived : Nat
  lastBytesCount : Nat
  lastBitrateCalculationTime : Int
  currentBitrate : ℚ
  framesWithHostLatency : Nat
  totalHostProcessingLatency : ℚ
  avgHostProcessingLatency : ℚ
deriving DecidableEq, Repr

/-- `memset(&stats_, 0, sizeof(stats_))` in the `VideoDecoder` constructor. -/
def initStats : VideoDecoderStats where
  totalFrames := 0
  decodedFrames := 0
  droppedFrames := 0
  averageDecodeTimeMs := 0
  maxDecodeTimeMs := 0
  lastFrameCount := 0
  lastFpsCalculationTime := 0
  currentFps := 0
  lastDecodedFrameCount := 0
  lastRenderedFpsCalculationTime := 0
  renderedFps := 0
  totalBytesReceived := 0
  lastBytesCount := 0
  lastBitrateCalculationTime := 0
  currentBitrate := 0
  framesWithHostLatency := 0
  totalHostProcessingLatency := 0
  avgHostProcessingLatency := 0

/-- `kStatsUpdateIntervalMs` (video_decoder.cpp). -/
def kStatsUpdateIntervalMs : Int := 1000

/-- `kMaxTimestampMapSize` (video_decoder.cpp). -/
def kMaxTimestampMapSize : Nat := 120

/-- `kMaxValidDecodeTimeMs` (video_decoder.cpp). -/
def kMaxValidDecodeTimeMs : Int := 1000

/-- `kEmaAlphaKeyframe` (video_decoder.cpp): 0.03. -/
def kEmaAlphaKeyframe : ℚ := 3 / 100

/-- `kEmaAlphaNormal` (video_decoder.cpp): 0.1. -/
def kEmaAlphaNormal : ℚ := 1 / 10

/-- `kMaxDirectSubmitRetries` (video_decoder.cpp). -/
def kMaxDirectSubmitRetries : Nat := 5

/-- `AVCODEC_BUFFER_FLAGS_EOS` bit. -/
def bufferFlagEos : Nat := 1

/-- `AVCODEC_BUFFER_FLAGS_SYNC_FRAME` bit. -/
def bufferFlagSyncFrame : Nat := 2

/-- `VideoDecoder::UpdateReceivedStats` (video_decoder.cpp lines 838-889).
The wall clock read (`steady_clock::now`, in ms) is the explicit
`currentTimeMs` argument. -/
def updateReceivedStats (s : VideoDecoderStats) (size : Nat)
    (hostProcessingLatency : Nat) (currentTimeMs : Int) : VideoDecoderStats :=
  let s := { s with totalFrames := s.totalFrames + 1,
                    totalBytesReceived := s.totalBytesReceived + size }
  let s :=
    if s.lastFpsCalculationTime = 0 then
      { s with lastFpsCalculationTime := currentTimeMs,
               lastFrameCount := s.totalFrames,
               lastDecodedFrameCount := s.decodedFrames,
               lastRenderedFpsCalculationTime := currentTimeMs,
               lastBytesCount := s.totalBytesReceived,
               lastBitrateCalculationTime := currentTimeMs }
    else if kStatsUpdateIntervalMs ≤ currentTimeMs - s.lastFpsCalculationTime then
      let elapsedMs := currentTimeMs - s.lastFpsCalculationTime
      let framesDelta := s.totalFrames - s.lastFrameCount
      let decodedDelta := s.decodedFrames - s.lastDecodedFrameCount
      let bytesDelta := s.totalBytesReceived - s.lastBytesCount
      let s := { s with
        currentFps := (framesDelta : ℚ) * 1000 / (elapsedMs : ℚ),
        lastFrameCount := s.totalFrames,
        renderedFps := (decodedDelta : ℚ) * 1000 / (elapsedMs : ℚ),
        lastDecodedFrameCount := s.decodedFrames,
        lastFpsCalculationTime := currentTimeMs,
        lastRenderedFpsCalculationTime := currentTimeMs,
        currentBitrate := (bytesDelta : ℚ) * 8 * 1000 / (elapsedMs : ℚ),
        lastBytesCount := s.totalBytesReceived,
        lastBitrateCalculationTime := currentTimeMs }
      if 0 < s.framesWithHostLatency then
        { s with avgHostProcessingLatency :=
            s.totalHostProcessingLatency / (s.framesWithHostLatency : ℚ) }
      else s
    else s
  if 0 < hostProcessingLatency then
    { s with framesWithHostLatency := s.framesWithHostLatency + 1,
             totalHostProcessingLatency :=
               s.totalHostProcessingLatency + (hostProcessingLatency : ℚ) / 10 }
  else s

/-- `VideoDecoder::UpdateDecodedStats` (video_decoder.cpp lines 983-1008).
`pts` is carried for signature fidelity; the body never reads it. -/
def updateDecodedStats (s : VideoDecoderStats) (pts : Int) (enqueueTimeMs : Int)
    (flags : Nat) (currentTimeMs : Int) : VideoDecoderStats :=
  let _ := pts
  let s := { s with decodedFrames := s.decodedFrames + 1 }
  if 0 < enqueueTimeMs then
    let decodeTimeMs := currentTimeMs - enqueueTimeMs
    if 0 ≤ decodeTimeMs ∧ decodeTimeMs < kMaxValidDecodeTimeMs then
      let isKeyframe := flags &&& bufferFlagSyncFrame ≠ 0
      let s :=
        if s.decodedFrames = 1 then
          { s with averageDecodeTimeMs := (decodeTimeMs : ℚ) }
        else
          let alpha := if isKeyframe then kEmaAlphaKeyframe else kEmaAlphaNormal
          { s with averageDecodeTimeMs :=
              alpha * (decodeTimeMs : ℚ) + (1 - alpha) * s.averageDecodeTimeMs }
      if s.maxDecodeTimeMs < (decodeTimeMs : ℚ) then
        { s with maxDecodeTimeMs := (decodeTimeMs : ℚ) }
      else s
    else s
  else s

/-!  ## TimestampLedger: `timestampToEnqueueTime_`

The source container is `std::unordered_map<int64_t, int64_t>`.  It is
modelled as a duplicate-free association list that mirrors the element
list of the mainstream hash-table implementations (libc++ / libstdc++)
for the access pattern the decoder exhibits: `int64_t` keys hash by
identity, consecutive timestamps land in distinct buckets, and a node
whose bucket is empty is linked at the HEAD of the container's element
list — so `begin()` designates the most recently inserted key, and an
assignment to an existing key leaves the node where it is. -/

/-- Association-list model of `timestampToEnqueueTime_` (newest key first). -/
abbrev Ledger := List (Int × Int)

/-- `m[k] = v` on the unordered map: overwrite in place if the key exists,
otherwise link a new node at the head of the element list. -/
def ledgerAssign (m : Ledger) (k v : Int) : Ledger :=
  if m.any (fun p => p.1 = k) then
    m.map (fun p => if p.1 = k then (k, v) else p)
  else (k, v) :: m

/-- `m.erase(m.begin())`: remove the element at the container's iteration
head. -/
def ledgerEraseBegin (m : Ledger) : Ledger := m.tail

/-- The bounded-insert idiom used at all three enqueue sites
(video_decoder.cpp lines 670-676, 811-817, 1189-1195):
`m[timestamp] = enqueueTimeMs; if (m.size() > kMaxTimestampMapSize) m.erase(m.begin());` -/
def ledgerRecord (m : Ledger) (k v : Int) : Ledger :=
  let m := ledgerAssign m k v
  if kMaxTimestampMapSize < m.length then ledgerEraseBegin m else m

/-- `m.find(k)` (value only). -/
def ledgerFind (m : Ledger) (k : Int) : Option Int :=
  (m.find? (fun p => p.1 = k)).map (fun p => p.2)

/-- `m.erase(it)` after a successful `find(k)`. -/
def ledgerErase (m : Ledger) (k : Int) : Ledger :=
  m.eraseP (fun p => p.1 = k)

/-- The two ledger operations the pipeline performs: `record` at the three
submission sites, `consume` at the two output sites (find, then erase when
present — video_decoder.cpp lines 935-943 and 1259-1267). -/
inductive LedgerOp where
  | record (ts enq : Int)
  | consume (ts : Int)

/-- One ledger operation. -/
def applyLedgerOp (m : Ledger) : LedgerOp → Ledger
  | .record ts enq => ledgerRecord m ts enq
  | .consume ts => if (ledgerFind m ts).isSome then ledgerErase m ts else m

/-!  ## Decode-engine oracle and slot events -/

/-- Response of one `OH_VideoDecoder_QueryInputBuffer` attempt, bundled with
the behaviour of the engine calls that follow it on the same slot:
`getBufferNull` — `OH_VideoDecoder_GetInputBuffer` returns null;
`getAddrNull` — `OH_AVBuffer_GetAddr` returns null;
`capacity` — `OH_AVBuffer_GetCapacity`;
`pushOk` — whether `OH_VideoDecoder_PushInputBuffer` returns AV_ERR_OK. -/
inductive QueryInputRes where
  | ok (slot : Nat) (getBufferNull : Bool) (getAddrNull : Bool)
       (capacity : Nat) (pushOk : Bool)
  | tryAgain
  | unsupport
  | error
deriving DecidableEq, Repr

/-- Response of one `OH_VideoDecoder_QueryOutputBuffer` call together with
the attributes and the render result of the returned slot. -/
inductive QueryOutputRes where
  | ok (slot : Nat) (getBufferNull : Bool) (attrOk : Bool)
       (pts : Int) (flags : Nat) (renderOk : Bool)
  | tryAgain
  | streamChanged
  | error
deriving DecidableEq, Repr

/-- Buffer-slot ownership events.  `pushInput` / `renderOutput` /
`freeOutput` are recorded only when the corresponding engine call is made
(for render, only when it succeeds: a failed `RenderOutputBuffer` does not
release the slot, and the code then frees it explicitly). -/
inductive SlotEvent where
  | acquireInput (slot : Nat)
  | pushInput (slot : Nat)
  | acquireOutput (slot : Nat)
  | renderOutput (slot : Nat)
  | freeOutput (slot : Nat)
deriving DecidableEq, Repr

/-!  ## Decoder state -/

/-- The mutable state of one `VideoDecoder` that the verified logic
touches.  `running` / `syncDecodeRunning` are the atomics of the same
names; the engine handle being non-null is folded into `running`. -/
structure DecState where
  mode : DecoderMode
  running : Bool
  syncDecodeRunning : Bool
  maxPendingFrames : Nat
  pendingFrameQueue : List PendingFrame
  inputIndexQueue : List Nat
  ledger : Ledger
  stats : VideoDecoderStats
  events : List SlotEvent
deriving Repr

/-- `Init`'s computation of `maxPendingFrames_` (video_decoder.cpp lines
124-128): `std::clamp(bufferCount, 2, 16)` when positive, else 2. -/
def maxPendingFramesOfConfig (bufferCount : Int) : Nat :=
  if 0 < bufferCount then (min (max bufferCount 2) 16).toNat else 2

/-- A freshly initialized and started decoder (empty queues, zeroed
statistics). -/
def initState (mode : DecoderMode) (bufferCount : Int) : DecState where
  mode := mode
  running := true
  syncDecodeRunning := decide (mode = .sync)
  maxPendingFrames := maxPendingFramesOfConfig bufferCount
  pendingFrameQueue := []
  inputIndexQueue := []
  ledger := []
  stats := initStats
  events := []

/-!  ## Fallback queue (`pendingFrameQueue_`) -/

/-- The eviction loop guarding the fallback push (video_decoder.cpp lines
717-721): `while (pendingFrameQueue_.size() >= maxPendingFrames_) { pop();
droppedFrames++; }`.  Returns the surviving queue and the updated dropped
counter.  (For `maxP ≥ 1` the C++ loop never pops an empty queue, which is
the only regime the decoder runs in: `Init` sets `maxPendingFrames_ ≥ 2`.) -/
def popWhileFull (maxP : Nat) : List PendingFrame → Nat → List PendingFrame × Nat
  | [], dropped => ([], dropped)
  | f :: rest, dropped =>
    if maxP ≤ (f :: rest).length then popWhileFull maxP rest (dropped + 1)
    else (f :: rest, dropped)

/-- The fallback enqueue block of `SubmitDecodeUnit` (video_decoder.cpp
lines 713-738): evict-oldest while at capacity, then push the new frame. -/
def pendingPush (st : DecState) (f : PendingFrame) : DecState :=
  let popped := popWhileFull st.maxPendingFrames st.pendingFrameQueue st.stats.droppedFrames
  { st with pendingFrameQueue := popped.1 ++ [f],
            stats := { st.stats with droppedFrames := popped.2 } }

/-!  ## Synchronous direct-submit path of `SubmitDecodeUnit` -/

/-- Result of the direct-submit retry loop. -/
inductive DirectOutcome where
  | submitted
  | frameTooLarge
  | fellThrough
deriving DecidableEq, Repr

/-- The retry loop of the sync path of `SubmitDecodeUnit`
(video_decoder.cpp lines 628-709).  `engine n` is the engine's response to
the `n`-th `QueryInputBuffer` attempt of this call; `fuel` counts the
remaining iterations (`kMaxDirectSubmitRetries - retryCount`; `running_`
is assumed to stay true for the duration of the call).  Threads the
timestamp ledger and the slot-event trace exactly as the source does:
the ledger entry is recorded after the capacity check and before
`PushInputBuffer`; a frame larger than the acquired buffer aborts the
whole call with `-1`. -/
def directSubmitAux (engine : Nat → QueryInputRes) (size : Nat)
    (timestamp nowMs : Int) :
    Nat → Nat → Ledger → List SlotEvent → DirectOutcome × Ledger × List SlotEvent
  | 0, _, ledger, events => (.fellThrough, ledger, events)
  | fuel + 1, attempt, ledger, events =>
    match engine attempt with
    | .ok slot bufNull addrNull capacity pushOk =>
      let events := events ++ [.acquireInput slot]
      if bufNull then
        directSubmitAux engine size timestamp nowMs fuel (attempt + 1) ledger events
      else if addrNull then
        directSubmitAux engine size timestamp nowMs fuel (attempt + 1) ledger events
      else if capacity < size then
        (.frameTooLarge, ledger, events)
      else
        let ledger := ledgerRecord ledger timestamp nowMs
        let events := events ++ [.pushInput slot]
        if pushOk then (.submitted, ledger, events)
        else directSubmitAux engine size timestamp nowMs fuel (attempt + 1) ledger events
    | .tryAgain =>
      directSubmitAux engine size timestamp nowMs fuel (attempt + 1) ledger events
    | .unsupport => (.fellThrough, ledger, events)
    | .error => (.fellThrough, ledger, events)

/-- The sync-mode body of `SubmitDecodeUnit` (video_decoder.cpp lines
616-741): received statistics are updated on entry, then up to five
direct-submit attempts, then the fallback-queue push.  Returns the C++
return value and the new state. -/
def submitSync (engine : Nat → QueryInputRes) (f : PendingFrame) (nowMs : Int)
    (st : DecState) : Int × DecState :=
  let st := { st with stats :=
      updateReceivedStats st.stats f.dataSize f.hostProcessingLatency nowMs }
  let r := directSubmitAux engine f.dataSize f.timestamp nowMs
      kMaxDirectSubmitRetries 0 st.ledger st.events
  let st := { st with ledger := r.2.1, events := r.2.2 }
  match r.1 with
  | .submitted => (0, st)
  | .frameTooLarge => (-1, st)
  | .fellThrough => (0, pendingPush st f)

/-!  ## Asynchronous path of `SubmitDecodeUnit` -/

/-- Environment of one async-mode `SubmitDecodeUnit` call:
`arriving` — slot indices pushed by `OnInputBufferAvailable` while the
call waits on `inputCond_`; `runningAfterWait` — the value of `running_`
observed after the wait; the remaining fields describe the engine calls
on the dequeued slot, as in `QueryInputRes.ok`. -/
structure AsyncEnv where
  arriving : List Nat
  runningAfterWait : Bool
  getAddrNull : Bool
  capacity : Nat
  pushOk : Bool

/-- The async-mode body of `SubmitDecodeUnit` (video_decoder.cpp lines
743-834).  `wait_for` returns false (timeout-drop) exactly when the input
queue was empty on entry, no slot arrived within the timeout, and
`running_` is still true; received statistics are updated only after a
successful `PushInputBuffer`, mirroring the source order. -/
def submitAsync (env : AsyncEnv) (f : PendingFrame) (nowMs : Int)
    (st : DecState) : Int × DecState :=
  let qBefore := st.inputIndexQueue
  let qAfter := qBefore ++ env.arriving
  let runningAfter := st.running && env.runningAfterWait
  if qBefore.isEmpty ∧ qAfter.isEmpty ∧ runningAfter = true then
    (-1, { st with stats :=
        { st.stats with droppedFrames := st.stats.droppedFrames + 1 } })
  else
    let st := { st with inputIndexQueue := qAfter, running := runningAfter }
    if st.running = false ∨ st.inputIndexQueue.isEmpty then (-1, st)
    else
      match st.inputIndexQueue with
      | [] => (-1, st)
      | slot :: rest =>
        let st := { st with inputIndexQueue := rest,
                            events := st.events ++ [.acquireInput slot] }
        if env.getAddrNull then (-1, st)
        else if env.capacity < f.dataSize then (-1, st)
        else
          let st := { st with ledger := ledgerRecord st.ledger f.timestamp nowMs }
          let st := { st with events := st.events ++ [.pushInput slot] }
          if env.pushOk then
            (0, { st with stats :=
                updateReceivedStats st.stats f.dataSize f.hostProcessingLatency nowMs })
          else (-1, st)

/-- `VideoDecoder::SubmitDecodeUnit` (video_decoder.cpp lines 591-835):
guard on `running_` (and a non-null engine handle), then dispatch on
`config_.decoderMode`. -/
def submitDecodeUnit (engine : Nat → QueryInputRes) (env : AsyncEnv)
    (f : PendingFrame) (nowMs : Int) (st : DecState) : Int × DecState :=
  if st.running = false then (-1, st)
  else if st.mode = .sync then submitSync engine f nowMs st
  else submitAsync env f nowMs st

/-!  ## Synchronous worker helpers -/

/-- `VideoDecoder::SyncProcessInput` (video_decoder.cpp lines 1105-1205).
Return value as in the source: 1 = frame submitted, 0 = nothing to do /
engine busy, -1 = error.  On `AV_ERR_UNSUPPORT` the worker flag
`syncDecodeRunning_` is cleared. -/
def syncProcessInput (engine : QueryInputRes) (nowMs : Int) (st : DecState) :
    Int × DecState :=
  if st.syncDecodeRunning = false then (0, st)
  else if st.pendingFrameQueue.isEmpty then (0, st)
  else
    match engine with
    | .tryAgain => (0, st)
    | .unsupport => (-1, { st with syncDecodeRunning := false })
    | .error => (-1, st)
    | .ok slot bufNull addrNull capacity pushOk =>
      let st := { st with events := st.events ++ [SlotEvent.acquireInput slot] }
      match st.pendingFrameQueue with
      | [] => (0, st)
      | frame :: rest =>
        let st := { st with pendingFrameQueue := rest }
        if bufNull then (-1, st)
        else if addrNull then (-1, st)
        else if capacity < frame.dataSize then (-1, st)
        else
          let st := { st with ledger := ledgerRecord st.ledger frame.timestamp nowMs }
          let st := { st with events := st.events ++ [SlotEvent.pushInput slot] }
          if pushOk then (1, st) else (-1, st)

/-- `VideoDecoder::SyncProcessOutput` (video_decoder.cpp lines 1207-1287).
Return value as in the source: 1 = frame rendered, 0 = nothing / freed,
-1 = error.  A failed `RenderOutputBuffer` is followed by
`FreeOutputBuffer` (the release event recorded in that case is the free). -/
def syncProcessOutput (engine : QueryOutputRes) (nowMs : Int) (st : DecState) :
    Int × DecState :=
  if st.syncDecodeRunning = false then (0, st)
  else
    match engine with
    | .tryAgain => (0, st)
    | .streamChanged => (0, st)
    | .error => (-1, st)
    | .ok slot bufNull attrOk pts flags renderOk =>
      let st := { st with events := st.events ++ [.acquireOutput slot] }
      if bufNull then (-1, st)
      else
        let pts := if attrOk then pts else 0
        let flags := if attrOk then flags else 0
        if flags &&& bufferFlagEos ≠ 0 then
          (0, { st with events := st.events ++ [.freeOutput slot] })
        else
          let enq := (ledgerFind st.ledger pts).getD 0
          let st := { st with ledger :=
              if (ledgerFind st.ledger pts).isSome then ledgerErase st.ledger pts
              else st.ledger }
          let st := { st with stats := updateDecodedStats st.stats pts enq flags nowMs }
          if renderOk then (1, { st with events := st.events ++ [.renderOutput slot] })
          else (0, { st with events := st.events ++ [.freeOutput slot] })

/-!  ## Runs -/

/-- Inputs of one `SubmitDecodeUnit` call (frame, wall clock, and the
engine's behaviour during the call). -/
structure SubmitCall where
  engine : Nat → QueryInputRes
  env : AsyncEnv
  frame : PendingFrame
  nowMs : Int

/-- A sequence of `SubmitDecodeUnit` calls, collecting the return values. -/
def runSubmits (calls : List SubmitCall) (st : DecState) : List Int × DecState :=
  match calls with
  | [] => ([], st)
  | c :: cs =>
    let r := submitDecodeUnit c.engine c.env c.frame c.nowMs st
    let rest := runSubmits cs r.2
    (r.1 :: rest.1, rest.2)

/-!  ## Presentation clock (`NativeRender::CalculatePresentTime`) -/

/-- The mutable presentation-time base of `NativeRender`
(native_render.h lines 140-142). -/
structure RenderTimeBase where
  timeBaseInitialized : Bool
  baseSystemTimeNs : Int
  basePtsUs : Int
deriving DecidableEq, Repr

/-- `NativeRender` state before any frame: `baseSystemTimeNs_ = 0`,
`basePtsUs_ = 0`, `timeBaseInitialized_ = false`. -/
def initTimeBase : RenderTimeBase where
  timeBaseInitialized := false
  baseSystemTimeNs := 0
  basePtsUs := 0

/-- `NativeRender::CalculatePresentTime` (native_render.cpp lines
236-269).  `nowNs` is the `clock_gettime(CLOCK_MONOTONIC)` reading;
`configuredFps` is `configuredFps_` (default 60, always positive when
set through `SetConfiguredFps`).  Returns the presentation time and the
updated base (the C++ members are `mutable`). -/
def calculatePresentTime (configuredFps : Int) (nowNs : Int) (pts : Int)
    (tb : RenderTimeBase) : Int × RenderTimeBase :=
  let tb :=
    if tb.timeBaseInitialized = false then
      { timeBaseInitialized := true, baseSystemTimeNs := nowNs, basePtsUs := pts }
    else tb
  let ptsDeltaNs := (pts - tb.basePtsUs) * 1000
  let targetPresentTimeNs := tb.baseSystemTimeNs + ptsDeltaNs
  if targetPresentTimeNs < nowNs then
    let frameIntervalNs := 1000000000 / configuredFps
    let target2 := nowNs + frameIntervalNs / 2
    (target2, { tb with baseSystemTimeNs := target2 - ptsDeltaNs })
  else (targetPresentTimeNs, tb)

/-!  ## Global instance wrapper (`VideoDecoderInstance`) -/

/-- The module-level configuration consulted by the
`VideoDecoderInstance` wrapper (video_decoder.cpp lines 1293-1313);
only the fields that could conceivably influence the forwarded frame
metadata are retained. -/
structure GlobalConfig where
  savedFps : ℚ
  savedVideoFormat : Int
  syncMode : Bool
deriving DecidableEq, Repr

/-- The frame-metadata synthesis of `VideoDecoderInstance::SubmitDecodeUnit`
(video_decoder.cpp lines 1405-1417): `FRAME_TYPE_IDR = 1` and
`FRAME_TYPE_I = 2` map to `I_FRAME`, everything else to `P_FRAME`, and the
presentation timestamp handed to `VideoDecoder::SubmitDecodeUnit` is
`frameNumber * 1000000 / 60` — computed from the frame number alone. -/
def instanceSubmitForward (g : GlobalConfig) (frameNumber : Int)
    (frameType : Int) : VideoFrameType × Int :=
  let _ := g
  let ty := if frameType = 1 ∨ frameType = 2 then VideoFrameType.iFrame
            else VideoFrameType.pFrame
  let timestamp := frameNumber * 1000000 / 60
  (ty, timestamp)

/-!  ## Lemmas about the fallback queue -/

theorem popWhileFull_cons (maxP : Nat) (f : PendingFrame)
    (rest : List PendingFrame) (d : Nat) :
    popWhileFull maxP (f :: rest) d =
      if maxP ≤ rest.length + 1 then popWhileFull maxP rest (d + 1)
      else (f :: rest, d) := by
  simp [popWhileFull]

theorem popWhileFull_length_lt (maxP : Nat) (h : 1 ≤ maxP) :
    ∀ (q : List PendingFrame) (d : Nat), (popWhileFull maxP q d).1.length < maxP := by
  intro q
  induction q with
  | nil => intro d; simpa [popWhileFull] using h
  | cons f rest ih =>
    intro d
    by_cases hc : maxP ≤ rest.length + 1
    · rw [popWhileFull_cons, if_pos hc]; exact ih (d + 1)
    · rw [popWhileFull_cons, if_neg hc]
      simpa using Nat.lt_of_not_le hc

theorem popWhileFull_of_lt (maxP : Nat) (q : List PendingFrame) (d : Nat)
    (h : q.length < maxP) : popWhileFull maxP q d = (q, d) := by
  cases q with
  | nil => simp [popWhileFull]
  | cons f rest =>
    simp only [List.length_cons] at h
    rw [popWhileFull_cons, if_neg (by omega)]

theorem popWhileFull_at_capacity (maxP : Nat) (q : List PendingFrame) (d : Nat)
    (h1 : 1 ≤ maxP) (h2 : q.length = maxP) :
    popWhileFull maxP q d = (q.tail, d + 1) := by
  cases q with
  | nil => simp at h2; omega
  | cons f rest =>
    simp only [List.length_cons] at h2
    have hrest : rest.length < maxP := by omega
    rw [popWhileFull_cons, if_pos (by omega),
        popWhileFull_of_lt maxP rest (d + 1) hrest]
    simp

theorem pendingPush_queue_bound (st : DecState) (f : PendingFrame)
    (h : 1 ≤ st.maxPendingFrames) :
    (pendingPush st f).pendingFrameQueue.length ≤ st.maxPendingFrames := by
  have hlt := popWhileFull_length_lt st.maxPendingFrames h st.pendingFrameQueue
    st.stats.droppedFrames
  simp only [pendingPush, List.length_append, List.length_cons, List.length_nil]
  omega

theorem pendingPush_maxPendingFrames (st : DecState) (f : PendingFrame) :
    (pendingPush st f).maxPendingFrames = st.maxPendingFrames := rfl

theorem submitSync_inv (engine : Nat → QueryInputRes) (f : PendingFrame)
    (nowMs : Int) (st : DecState) (h1 : 1 ≤ st.maxPendingFrames)
    (h2 : st.pendingFrameQueue.length ≤ st.maxPendingFrames) :
    (submitSync engine f nowMs st).2.maxPendingFrames = st.maxPendingFrames ∧
    (submitSync engine f nowMs st).2.pendingFrameQueue.length ≤ st.maxPendingFrames := by
  simp only [submitSync]
  split
  · exact ⟨rfl, h2⟩
  · exact ⟨rfl, h2⟩
  · refine ⟨rfl, ?_⟩
    exact pendingPush_queue_bound _ f h1

theorem submitAsync_maxPending (env : AsyncEnv) (f : PendingFrame)
    (nowMs : Int) (st : DecState) :
    (submitAsync env f nowMs st).2.maxPendingFrames = st.maxPendingFrames := by
  simp only [submitAsync]
  repeat' split
  all_goals rfl

theorem submitAsync_queueEq (env : AsyncEnv) (f : PendingFrame)
    (nowMs : Int) (st : DecState) :
    (submitAsync env f nowMs st).2.pendingFrameQueue = st.pendingFrameQueue := by
  simp only [submitAsync]
  repeat' split
  all_goals rfl

theorem submitDecodeUnit_inv (engine : Nat → QueryInputRes) (env : AsyncEnv)
    (f : PendingFrame) (nowMs : Int) (st : DecState)
    (h1 : 1 ≤ st.maxPendingFrames)
    (h2 : st.pendingFrameQueue.length ≤ st.maxPendingFrames) :
    (submitDecodeUnit engine env f nowMs st).2.maxPendingFrames = st.maxPendingFrames ∧
    (submitDecodeUnit engine env f nowMs st).2.pendingFrameQueue.length ≤
      st.maxPendingFrames := by
  unfold submitDecodeUnit
  split
  · exact ⟨rfl, h2⟩
  · split
    · exact submitSync_inv engine f nowMs st h1 h2
    · refine ⟨submitAsync_maxPending env f nowMs st, ?_⟩
      rw [submitAsync_queueEq env f nowMs st]
      exact h2

theorem runSubmits_inv (calls : List SubmitCall) (st : DecState)
    (h1 : 1 ≤ st.maxPendingFrames)
    (h2 : st.pendingFrameQueue.length ≤ st.maxPendingFrames) :
    (runSubmits calls st).2.maxPendingFrames = st.maxPendingFrames ∧
    (runSubmits calls st).2.pendingFrameQueue.length ≤ st.maxPendingFrames := by
  induction calls generalizing st with
  | nil => exact ⟨rfl, h2⟩
  | cons c cs ih =>
    obtain ⟨ha, hb⟩ := submitDecodeUnit_inv c.engine c.env c.frame c.nowMs st h1 h2
    have h1' : 1 ≤ (submitDecodeUnit c.engine c.env c.frame c.nowMs st).2.maxPendingFrames :=
      ha ▸ h1
    have h2' : (submitDecodeUnit c.engine c.env c.frame c.nowMs st).2.pendingFrameQueue.length ≤
        (submitDecodeUnit c.engine c.env c.frame c.nowMs st).2.maxPendingFrames := ha ▸ hb
    obtain ⟨ia, ib⟩ := ih _ h1' h2'
    constructor
    · simp only [runSubmits]
      exact ia.trans ha
    · simp only [runSubmits]
      exact ib.trans ha.le

/-!  ## Claim C1 -/

/-- C1: For every sequence of `SubmitDecodeUnit` calls in synchronous mode,
the fallback queue (`pendingFrameQueue_`) never holds more than
`maxPendingFrames` entries, and whenever a push would exceed that bound the
oldest entry (the queue head) is evicted with `droppedFrames` incremented
by exactly 1 per eviction.  (The bound is proved for arbitrary call
sequences in either mode — the queue is only ever pushed by the sync
path — starting from any state within the bound with `maxPendingFrames ≥ 1`;
`Init` always establishes `maxPendingFrames ≥ 2` and an empty queue.) -/
theorem C1_fallback_queue_bounded_drop_oldest
    (calls : List SubmitCall) (st : DecState)
    (h1 : 1 ≤ st.maxPendingFrames)
    (h2 : st.pendingFrameQueue.length ≤ st.maxPendingFrames) :
    (runSubmits calls st).2.pendingFrameQueue.length ≤
      (runSubmits calls st).2.maxPendingFrames
    ∧ ∀ (st2 : DecState) (f : PendingFrame),
        1 ≤ st2.maxPendingFrames →
        st2.pendingFrameQueue.length = st2.maxPendingFrames →
        (pendingPush st2 f).pendingFrameQueue = st2.pendingFrameQueue.tail ++ [f]
        ∧ (pendingPush st2 f).stats.droppedFrames = st2.stats.droppedFrames + 1 := by
  constructor
  · obtain ⟨ha, hb⟩ := runSubmits_inv calls st h1 h2
    rw [ha]
    exact hb
  · intro st2 f h1' h2'
    have hp := popWhileFull_at_capacity st2.maxPendingFrames st2.pendingFrameQueue
      st2.stats.droppedFrames h1' h2'
    exact ⟨by simp [pendingPush, hp], by simp [pendingPush, hp]⟩

/-- An engine that always answers `AV_ERR_TRY_AGAIN_LATER` ("busy"). -/
def busyEngine : Nat → QueryInputRes := fun _ => .tryAgain

/-- An async environment in which no input slot ever arrives. -/
def noSlotEnv : AsyncEnv where
  arriving := []
  runningAfterWait := true
  getAddrNull := false
  capacity := 0
  pushOk := false

/-- Ten sync-mode submissions against an always-busy engine
(the end-to-end scenario of spec §8). -/
def tenBusyCalls : List SubmitCall :=
  (List.range 10).map (fun i =>
    { engine := busyEngine, env := noSlotEnv,
      frame := ⟨1000, (i : Int), .pFrame, (i : Int) * 16666, 0⟩,
      nowMs := 1000 + (i : Int) })

/-- Witness for C1: the bound holds on a concrete 3-call busy run from a
fresh sync-mode decoder, with every hypothesis discharged by computation. -/
theorem C1_fallback_queue_bounded_drop_oldest_witness :
    (runSubmits (tenBusyCalls.take 3) (initState .sync 0)).2.pendingFrameQueue.length ≤
      (runSubmits (tenBusyCalls.take 3) (initState .sync 0)).2.maxPendingFrames :=
  (C1_fallback_queue_bounded_drop_oldest (tenBusyCalls.take 3) (initState .sync 0)
    (by decide) (by decide)).1

/-!  ## Claim C6 -/

/-- C6: 10 frames submitted in synchronous mode while the engine always
reports busy on every input-slot acquisition: afterwards the fallback
queue holds exactly `maxPendingFrames = 2` frames (the default),
`droppedFrames = 10 - 2 = 8`, `totalFrames = 10`, and every
`SubmitDecodeUnit` call returned success (0). -/
theorem C6_ten_busy_frames_fill_queue :
    (runSubmits tenBusyCalls (initState .sync 0)).1 = List.replicate 10 0
    ∧ (initState .sync 0).maxPendingFrames = 2
    ∧ (runSubmits tenBusyCalls (initState .sync 0)).2.pendingFrameQueue.length = 2
    ∧ (runSubmits tenBusyCalls (initState .sync 0)).2.stats.droppedFrames = 8
    ∧ (runSubmits tenBusyCalls (initState .sync 0)).2.stats.totalFrames = 10 := by
  refine ⟨by decide, by decide, by decide, by decide, by decide⟩

/-!  ## Lemmas about the statistics counters and the mode field -/

theorem updateReceivedStats_counters (s : VideoDecoderStats) (size lat : Nat)
    (now : Int) :
    (updateReceivedStats s size lat now).totalFrames = s.totalFrames + 1
    ∧ (updateReceivedStats s size lat now).totalBytesReceived =
        s.totalBytesReceived + size
    ∧ (updateReceivedStats s size lat now).droppedFrames = s.droppedFrames
    ∧ (updateReceivedStats s size lat now).decodedFrames = s.decodedFrames := by
  simp only [updateReceivedStats]
  repeat' split
  all_goals simp

theorem pendingPush_stats_frames (st : DecState) (f : PendingFrame) :
    (pendingPush st f).stats.totalFrames = st.stats.totalFrames
    ∧ (pendingPush st f).stats.totalBytesReceived = st.stats.totalBytesReceived :=
  ⟨rfl, rfl⟩

theorem submitSync_received_counters (engine : Nat → QueryInputRes)
    (f : PendingFrame) (nowMs : Int) (st : DecState) :
    (submitSync engine f nowMs st).2.stats.totalFrames = st.stats.totalFrames + 1
    ∧ (submitSync engine f nowMs st).2.stats.totalBytesReceived =
        st.stats.totalBytesReceived + f.dataSize := by
  obtain ⟨h1, h2, h3, h4⟩ :=
    updateReceivedStats_counters st.stats f.dataSize f.hostProcessingLatency nowMs
  simp only [submitSync]
  split
  · exact ⟨h1, h2⟩
  · exact ⟨h1, h2⟩
  · exact ⟨h1, h2⟩

theorem submitSync_mode (engine : Nat → QueryInputRes) (f : PendingFrame)
    (nowMs : Int) (st : DecState) :
    (submitSync engine f nowMs st).2.mode = st.mode := by
  simp only [submitSync]
  split
  all_goals rfl

theorem submitAsync_mode (env : AsyncEnv) (f : PendingFrame) (nowMs : Int)
    (st : DecState) :
    (submitAsync env f nowMs st).2.mode = st.mode := by
  simp only [submitAsync]
  repeat' split
  all_goals rfl

theorem submitDecodeUnit_mode (engine : Nat → QueryInputRes) (env : AsyncEnv)
    (f : PendingFrame) (nowMs : Int) (st : DecState) :
    (submitDecodeUnit engine env f nowMs st).2.mode = st.mode := by
  unfold submitDecodeUnit
  split
  · rfl
  · split
    · exact submitSync_mode engine f nowMs st
    · exact submitAsync_mode env f nowMs st

/-!  ## Claim C2 -/

/-- An engine whose first input query succeeds with slot 7 of capacity 50
and whose `PushInputBuffer` would succeed. -/
def oversizeEngine : Nat → QueryInputRes := fun _ => .ok 7 false false 50 true

/-- C2 (code bug, evaluated at the failing input): in synchronous mode,
when `QueryInputBuffer` succeeds (slot 7, capacity 50) and the frame
(100 bytes) is larger than the buffer capacity, `SubmitDecodeUnit`
returns -1 with the acquired input slot neither pushed nor released —
the event trace of the call is exactly `[acquireInput 7]`, so the claimed
"exactly one of submit / render / release per acquired slot, even on
error paths such as a frame larger than the buffer capacity" is violated
by the code. -/
theorem C2_input_slot_leaked_on_oversize_frame :
    (submitDecodeUnit oversizeEngine noSlotEnv ⟨100, 1, .iFrame, 16666, 0⟩ 1000
        (initState .sync 0)).1 = -1
    ∧ (submitDecodeUnit oversizeEngine noSlotEnv ⟨100, 1, .iFrame, 16666, 0⟩ 1000
        (initState .sync 0)).2.events = [SlotEvent.acquireInput 7] := by
  exact ⟨by decide, by decide⟩

/-!  ## Claim C3 -/

/-- An engine that always answers `AV_ERR_UNSUPPORT`. -/
def unsupportEngine : Nat → QueryInputRes := fun _ => .unsupport

/-- C3 counterexample: with a freshly started sync-mode decoder whose
engine reports "unsupported" on the first `QueryInputBuffer`, the submit
call returns 0 but the pipeline does NOT switch to asynchronous mode —
the mode after the call is still `sync` (so the next submit again takes
the sync path), refuting the claim that the pipeline permanently switches
to asynchronous mode with the next Submit succeeding via the async path. -/
theorem C3_counterexample_mode_stays_sync :
    (submitDecodeUnit unsupportEngine noSlotEnv ⟨10, 1, .iFrame, 0, 0⟩ 1000
        (initState .sync 0)).2.mode = DecoderMode.sync
    ∧ ¬ (submitDecodeUnit unsupportEngine noSlotEnv ⟨10, 1, .iFrame, 0, 0⟩ 1000
        (initState .sync 0)).2.mode = DecoderMode.async
    ∧ (submitDecodeUnit unsupportEngine noSlotEnv ⟨10, 1, .iFrame, 0, 0⟩ 1000
        (initState .sync 0)).1 = 0
    ∧ (submitDecodeUnit unsupportEngine noSlotEnv ⟨10, 1, .iFrame, 0, 0⟩ 1000
        (initState .sync 0)).2.pendingFrameQueue.length = 1 := by
  refine ⟨by decide, by decide, by decide, by decide⟩

/-- C3 as amended: when the engine reports "feature unsupported" in
synchronous mode, `SubmitDecodeUnit` abandons direct submission, enqueues
the frame on the fallback queue and returns success; the decoder mode is
never changed by a submit call (the async fallback exists only at `Init`
when the sync-mode key is unavailable); and `SyncProcessInput` on
"unsupported" stops the sync worker (`syncDecodeRunning_ := false`) and
returns -1. -/
theorem C3_unsupported_falls_back_to_queue
    (engine : Nat → QueryInputRes) (env : AsyncEnv) (f : PendingFrame)
    (nowMs : Int) (st : DecState)
    (hrun : st.running = true) (hmode : st.mode = .sync)
    (heng : engine 0 = .unsupport) :
    (submitDecodeUnit engine env f nowMs st).1 = 0
    ∧ (submitDecodeUnit engine env f nowMs st).2.mode = DecoderMode.sync
    ∧ (submitDecodeUnit engine env f nowMs st).2.pendingFrameQueue =
        (popWhileFull st.maxPendingFrames st.pendingFrameQueue
          st.stats.droppedFrames).1 ++ [f]
    ∧ (∀ (e2 : Nat → QueryInputRes) (v2 : AsyncEnv) (f2 : PendingFrame)
         (n2 : Int) (s2 : DecState),
         (submitDecodeUnit e2 v2 f2 n2 s2).2.mode = s2.mode)
    ∧ (st.syncDecodeRunning = true → st.pendingFrameQueue.isEmpty = false →
        (syncProcessInput .unsupport nowMs st).1 = -1
        ∧ (syncProcessInput .unsupport nowMs st).2.syncDecodeRunning = false) := by
  have hdrop :=
    (updateReceivedStats_counters st.stats f.dataSize f.hostProcessingLatency nowMs).2.2.1
  refine ⟨?_, ?_, ?_, ?_, ?_⟩
  · simp [submitDecodeUnit, submitSync, hrun, hmode, kMaxDirectSubmitRetries,
      directSubmitAux, heng]
  · simp [submitDecodeUnit, hrun, hmode, submitSync_mode]
  · simp [submitDecodeUnit, submitSync, hrun, hmode, kMaxDirectSubmitRetries,
      directSubmitAux, heng, pendingPush, hdrop]
  · intro e2 v2 f2 n2 s2
    exact submitDecodeUnit_mode e2 v2 f2 n2 s2
  · intro hs hq
    constructor
    · simp [syncProcessInput, hs, hq]
    · simp [syncProcessInput, hs, hq]

/-- Witness for C3 (amended): concrete instantiation, hypotheses
discharged by computation. -/
theorem C3_unsupported_falls_back_to_queue_witness :
    (submitDecodeUnit unsupportEngine noSlotEnv ⟨10, 2, .pFrame, 100, 0⟩ 2000
        (initState .sync 0)).1 = 0 :=
  (C3_unsupported_falls_back_to_queue unsupportEngine noSlotEnv
    ⟨10, 2, .pFrame, 100, 0⟩ 2000 (initState .sync 0) rfl rfl rfl).1

/-!  ## Claim C4 -/

/-- C4 counterexample: a fresh async-mode decoder with no available input
slot and none arriving within the wait: the frame is dropped and
`droppedFrames` is incremented — but the call returns -1, so the loss IS
visible via an error return, refuting the claim that it is visible only
via statistics. -/
theorem C4_counterexample_timeout_returns_error :
    (submitDecodeUnit busyEngine noSlotEnv ⟨500, 3, .pFrame, 33333, 0⟩ 1500
        (initState .async 0)).1 = -1
    ∧ ¬ (submitDecodeUnit busyEngine noSlotEnv ⟨500, 3, .pFrame, 33333, 0⟩ 1500
        (initState .async 0)).1 = 0
    ∧ (submitDecodeUnit busyEngine noSlotEnv ⟨500, 3, .pFrame, 33333, 0⟩ 1500
        (initState .async 0)).2.stats.droppedFrames = 1 := by
  refine ⟨by decide, by decide, by decide⟩

/-- C4 as amended: in asynchronous mode, when `SubmitDecodeUnit` times out
waiting for an input-slot handle (queue empty on entry, none arriving,
still running), the frame is dropped with `droppedFrames` incremented by
one and the received-frame statistics untouched, and the call returns -1 —
the loss is visible both via statistics and via the error return. -/
theorem C4_async_timeout_drops_frame
    (engine : Nat → QueryInputRes) (env : AsyncEnv) (f : PendingFrame)
    (nowMs : Int) (st : DecState)
    (hrun : st.running = true) (hmode : st.mode = .async)
    (hq : st.inputIndexQueue = []) (harr : env.arriving = [])
    (hw : env.runningAfterWait = true) :
    (submitDecodeUnit engine env f nowMs st).1 = -1
    ∧ (submitDecodeUnit engine env f nowMs st).2.stats.droppedFrames =
        st.stats.droppedFrames + 1
    ∧ (submitDecodeUnit engine env f nowMs st).2.stats.totalFrames =
        st.stats.totalFrames := by
  refine ⟨?_, ?_, ?_⟩
  all_goals simp [submitDecodeUnit, submitAsync, hrun, hmode, hq, harr, hw]

/-- Witness for C4 (amended). -/
theorem C4_async_timeout_drops_frame_witness :
    (submitDecodeUnit busyEngine noSlotEnv ⟨600, 8, .pFrame, 44444, 0⟩ 1600
        (initState .async 0)).1 = -1 :=
  (C4_async_timeout_drops_frame busyEngine noSlotEnv ⟨600, 8, .pFrame, 44444, 0⟩
    1600 (initState .async 0) rfl rfl rfl rfl rfl).1

/-!  ## Claim C5 -/

/-- C5 counterexample: on the async-mode timeout-drop path, the
received-frame statistics are NOT updated — after the call `totalFrames`
and `totalBytesReceived` are still 0 (and the host-latency accumulator is
untouched even though the frame carried one), refuting "every call updates
the received-frame statistics regardless of which path the frame takes". -/
theorem C5_counterexample_async_drop_skips_received_stats :
    (submitDecodeUnit busyEngine noSlotEnv ⟨700, 4, .pFrame, 50000, 7⟩ 1700
        (initState .async 0)).1 = -1
    ∧ (submitDecodeUnit busyEngine noSlotEnv ⟨700, 4, .pFrame, 50000, 7⟩ 1700
        (initState .async 0)).2.stats.totalFrames = 0
    ∧ (submitDecodeUnit busyEngine noSlotEnv ⟨700, 4, .pFrame, 50000, 7⟩ 1700
        (initState .async 0)).2.stats.totalBytesReceived = 0
    ∧ (submitDecodeUnit busyEngine noSlotEnv ⟨700, 4, .pFrame, 50000, 7⟩ 1700
        (initState .async 0)).2.stats.framesWithHostLatency = 0
    ∧ ¬ (submitDecodeUnit busyEngine noSlotEnv ⟨700, 4, .pFrame, 50000, 7⟩ 1700
        (initState .async 0)).2.stats.totalFrames =
          (initState .async 0).stats.totalFrames + 1 := by
  refine ⟨by decide, by decide, by decide, by decide, by decide⟩

/-- C5 as amended: while the pipeline is running, every synchronous-mode
`SubmitDecodeUnit` call updates the received-frame statistics
(`totalFrames`, `totalBytesReceived`) regardless of the path taken
(direct submission, fallback enqueue, oversize error); in asynchronous
mode the received-frame statistics are updated exactly when the frame is
successfully pushed to the decoder — on the timeout-drop path they are
left unchanged. -/
theorem C5_received_stats_update_policy
    (engine : Nat → QueryInputRes) (env : AsyncEnv) (f : PendingFrame)
    (nowMs : Int) (st : DecState) (hrun : st.running = true) :
    (st.mode = .sync →
      (submitDecodeUnit engine env f nowMs st).2.stats.totalFrames =
        st.stats.totalFrames + 1
      ∧ (submitDecodeUnit engine env f nowMs st).2.stats.totalBytesReceived =
        st.stats.totalBytesReceived + f.dataSize)
    ∧ (st.mode = .async → st.inputIndexQueue = [] → env.arriving = [] →
        env.runningAfterWait = true →
      (submitDecodeUnit engine env f nowMs st).2.stats.totalFrames =
        st.stats.totalFrames)
    ∧ (∀ slot rest, st.mode = .async → st.inputIndexQueue = slot :: rest →
        env.runningAfterWait = true → env.getAddrNull = false →
        f.dataSize ≤ env.capacity → env.pushOk = true →
      (submitDecodeUnit engine env f nowMs st).2.stats.totalFrames =
        st.stats.totalFrames + 1) := by
  refine ⟨?_, ?_, ?_⟩
  · intro hmode
    have h := submitSync_received_counters engine f nowMs st
    simpa [submitDecodeUnit, hrun, hmode] using h
  · intro hmode hq harr hw
    simp [submitDecodeUnit, submitAsync, hrun, hmode, hq, harr, hw]
  · intro slot rest hmode hq hw haddr hcap hpush
    have h := (updateReceivedStats_counters st.stats f.dataSize
      f.hostProcessingLatency nowMs).1
    simp [submitDecodeUnit, submitAsync, hrun, hmode, hq, hw, haddr,
      Nat.not_lt.mpr hcap, hpush, h]

/-- Witness for C5 (amended): a sync-mode call against a busy engine
updates `totalFrames`. -/
theorem C5_received_stats_update_policy_witness :
    (submitDecodeUnit busyEngine noSlotEnv ⟨800, 9, .iFrame, 55555, 3⟩ 1800
        (initState .sync 0)).2.stats.totalFrames =
      (initState .sync 0).stats.totalFrames + 1 :=
  ((C5_received_stats_update_policy busyEngine noSlotEnv ⟨800, 9, .iFrame, 55555, 3⟩
    1800 (initState .sync 0) rfl).1 rfl).1

/-!  ## Lemmas about the presentation clock -/

theorem calculatePresentTime_initialized (fps nowNs pts : Int)
    (tb : RenderTimeBase) :
    (calculatePresentTime fps nowNs pts tb).2.timeBaseInitialized = true := by
  simp only [calculatePresentTime]
  repeat' split
  all_goals simp_all

theorem calculatePresentTime_identity (fps nowNs pts : Int)
    (tb : RenderTimeBase) :
    (calculatePresentTime fps nowNs pts tb).1 =
      (calculatePresentTime fps nowNs pts tb).2.baseSystemTimeNs +
        (pts - (calculatePresentTime fps nowNs pts tb).2.basePtsUs) * 1000 := by
  simp only [calculatePresentTime]
  repeat' split
  all_goals simp

theorem calculatePresentTime_no_stall_fst (fps nowNs pts : Int)
    (tb : RenderTimeBase) (hi : tb.timeBaseInitialized = true)
    (h : nowNs ≤ tb.baseSystemTimeNs + (pts - tb.basePtsUs) * 1000) :
    (calculatePresentTime fps nowNs pts tb).1 =
      tb.baseSystemTimeNs + (pts - tb.basePtsUs) * 1000 := by
  simp [calculatePresentTime, hi, Int.not_lt.mpr h]

/-!  ## Claim C7 -/

/-- C7: `CalculatePresentTime` matches its reference definition:
(i) the first call after (re)initialization anchors the base at
`(now, pts)` and returns `now`;
(ii) afterwards, while not late, the result is
`base.wallClock + (pts - base.pts) * 1000` ns with the base unchanged;
(iii) when the extrapolated target is earlier than `now`, the result is
`now + halfFrameInterval` (hence `≥ now`) and the base is recomputed as
`target - (pts - base.pts) * 1000` with `basePts` unchanged, so subsequent
frames extrapolate from the corrected anchor;
(iv) two consecutive calls whose pts differ by 16000 µs with no stall on
the second call differ by exactly 16000000 ns. -/
theorem C7_calculate_present_time_reference (fps nowNs pts : Int)
    (tb : RenderTimeBase) (hfps : 0 < fps) :
    (tb.timeBaseInitialized = false →
      calculatePresentTime fps nowNs pts tb = (nowNs, ⟨true, nowNs, pts⟩))
    ∧ (tb.timeBaseInitialized = true →
        nowNs ≤ tb.baseSystemTimeNs + (pts - tb.basePtsUs) * 1000 →
        calculatePresentTime fps nowNs pts tb =
          (tb.baseSystemTimeNs + (pts - tb.basePtsUs) * 1000, tb))
    ∧ (tb.timeBaseInitialized = true →
        tb.baseSystemTimeNs + (pts - tb.basePtsUs) * 1000 < nowNs →
        (calculatePresentTime fps nowNs pts tb).1 =
          nowNs + 1000000000 / fps / 2
        ∧ nowNs ≤ (calculatePresentTime fps nowNs pts tb).1
        ∧ (calculatePresentTime fps nowNs pts tb).2.baseSystemTimeNs =
            (calculatePresentTime fps nowNs pts tb).1 -
              (pts - tb.basePtsUs) * 1000
        ∧ (calculatePresentTime fps nowNs pts tb).2.basePtsUs = tb.basePtsUs)
    ∧ (∀ (pts1 now1 now2 : Int) (tb1 : RenderTimeBase),
        now2 ≤ (calculatePresentTime fps now1 pts1 tb1).2.baseSystemTimeNs +
          (pts1 + 16000 -
            (calculatePresentTime fps now1 pts1 tb1).2.basePtsUs) * 1000 →
        (calculatePresentTime fps now2 (pts1 + 16000)
            (calculatePresentTime fps now1 pts1 tb1).2).1 =
          (calculatePresentTime fps now1 pts1 tb1).1 + 16000000) := by
  have hhalf : (0 : Int) ≤ 1000000000 / fps / 2 :=
    Int.ediv_nonneg (Int.ediv_nonneg (by norm_num) hfps.le) (by norm_num)
  refine ⟨?_, ?_, ?_, ?_⟩
  · intro hi
    simp [calculatePresentTime, hi]
  · intro hi hontime
    simp [calculatePresentTime, hi, Int.not_lt.mpr hontime]
  · intro hi hlate
    refine ⟨?_, ?_, ?_, ?_⟩
    all_goals simp [calculatePresentTime, hi, hlate]
    exact hhalf
  · intro pts1 now1 now2 tb1 h2
    have hinit := calculatePresentTime_initialized fps now1 pts1 tb1
    have hid := calculatePresentTime_identity fps now1 pts1 tb1
    rw [calculatePresentTime_no_stall_fst fps now2 (pts1 + 16000)
      (calculatePresentTime fps now1 pts1 tb1).2 hinit h2, hid]
    ring

/-- Witness for C7: concrete first call at fps 60 anchors the base. -/
theorem C7_calculate_present_time_reference_witness :
    calculatePresentTime 60 5000 777 initTimeBase = (5000, ⟨true, 5000, 777⟩) :=
  (C7_calculate_present_time_reference 60 5000 777 initTimeBase (by decide)).1 rfl

/-!  ## Claim C8 -/

/-- C8: the first decode-latency sample seeds the EMA directly: from a
state with no decoded frame yet, a frame enqueued at time `T > 0` whose
decode completes at `T + 12` ms yields `averageDecodeTimeMs = 12` exactly,
with no smoothing applied (any flags, keyframe included). -/
theorem C8_first_decode_sample_seeds_ema (s : VideoDecoderStats) (pts T : Int)
    (flags : Nat) (hdec : s.decodedFrames = 0) (hT : 0 < T) :
    (updateDecodedStats s pts T flags (T + 12)).averageDecodeTimeMs = 12 := by
  have h12 : T + 12 - T = (12 : Int) := by ring
  have hone : s.decodedFrames + 1 = 1 := by rw [hdec]
  simp only [updateDecodedStats, h12]
  rw [if_pos hT,
      if_pos (show (0 : Int) ≤ 12 ∧ (12 : Int) < kMaxValidDecodeTimeMs by
        norm_num [kMaxValidDecodeTimeMs]),
      if_pos hone]
  split
  all_goals norm_num

/-- Witness for C8: single keyframe, enqueue at 100 ms, done at 112 ms. -/
theorem C8_first_decode_sample_seeds_ema_witness :
    (updateDecodedStats initStats 555 100 2 (100 + 12)).averageDecodeTimeMs = 12 :=
  C8_first_decode_sample_seeds_ema initStats 555 100 2 rfl (by decide)

/-!  ## Claim C9 -/

theorem ledgerAssign_length (m : Ledger) (k v : Int) :
    (ledgerAssign m k v).length = m.length ∨
    (ledgerAssign m k v).length = m.length + 1 := by
  unfold ledgerAssign
  split
  · left; simp
  · right; simp

theorem ledgerRecord_length_le (m : Ledger) (k v : Int)
    (h : m.length ≤ kMaxTimestampMapSize) :
    (ledgerRecord m k v).length ≤ kMaxTimestampMapSize := by
  have h1 := ledgerAssign_length m k v
  simp only [ledgerRecord, ledgerEraseBegin]
  split
  · rcases h1 with h1 | h1
    all_goals simp only [List.length_tail]
    all_goals omega
  · omega

theorem applyLedgerOp_length_le (m : Ledger) (op : LedgerOp)
    (h : m.length ≤ kMaxTimestampMapSize) :
    (applyLedgerOp m op).length ≤ kMaxTimestampMapSize := by
  cases op with
  | record ts enq => exact ledgerRecord_length_le m ts enq h
  | consume ts =>
    simp only [applyLedgerOp, ledgerErase]
    split
    · exact le_trans (List.Sublist.length_le (List.eraseP_sublist m)) h
    · exact h

/-- C9 (amended): across any sequence of ledger operations (submission
records and output consumptions, in any order, including missing or
out-of-order outputs) starting within the bound, the TimestampLedger
never exceeds its fixed maximum entry count (120) after any operation —
but on overflow the entry removed by `erase(begin())` is the one at the
container's iteration head, which under the modelled hash-table layout is
the just-inserted newest entry, so a fresh key inserted into a full map
leaves the map unchanged (not: the oldest entry is evicted). -/
theorem C9_ledger_bounded_eviction (ops : List LedgerOp) (m : Ledger)
    (h : m.length ≤ kMaxTimestampMapSize) :
    (ops.foldl applyLedgerOp m).length ≤ kMaxTimestampMapSize
    ∧ (∀ (m2 : Ledger) (k v : Int), m2.length = kMaxTimestampMapSize →
        m2.any (fun p => p.1 = k) = false → ledgerRecord m2 k v = m2) := by
  constructor
  · induction ops generalizing m with
    | nil => simpa using h
    | cons op rest ih =>
      simp only [List.foldl_cons]
      exact ih (applyLedgerOp m op) (applyLedgerOp_length_le m op h)
  · intro m2 k v hlen hnot
    have hcons : ((k, v) :: m2).length = kMaxTimestampMapSize + 1 := by
      simp [hlen]
    simp [ledgerRecord, ledgerAssign, ledgerEraseBegin, hnot, hcons]

/-- Witness for C9 (amended): a concrete three-operation run stays within
the bound. -/
theorem C9_ledger_bounded_eviction_witness :
    (([LedgerOp.record 1 100, LedgerOp.record 2 101,
       LedgerOp.consume 1]).foldl applyLedgerOp []).length ≤
      kMaxTimestampMapSize :=
  (C9_ledger_bounded_eviction
    [LedgerOp.record 1 100, LedgerOp.record 2 101, LedgerOp.consume 1] []
    (by decide)).1

/-- The C9 counterexample run: 121 records with distinct timestamps
0..120 (each submission records a fresh timestamp; no output ever
arrives). -/
def c9overflowRun : Ledger :=
  (List.range 121).foldl (fun m i => ledgerRecord m (i : Int) 500) []

set_option maxRecDepth 100000 in
/-- C9 counterexample: after 121 distinct-timestamp records the ledger
holds 120 entries, but the OLDEST entry (timestamp 0) is still present
while the newest (timestamp 120) is the one that was evicted — refuting
"on overflow the oldest entry is the one evicted". -/
theorem C9_counterexample_oldest_not_evicted :
    c9overflowRun.length = kMaxTimestampMapSize
    ∧ c9overflowRun.any (fun p => p.1 = 0) = true
    ∧ c9overflowRun.any (fun p => p.1 = 120) = false := by
  refine ⟨by decide, by decide, by decide⟩

/-!  ## Claim C10 -/

/-- C10: for every frame passed through
`VideoDecoderInstance::SubmitDecodeUnit`, the presentation timestamp
handed to the decoder is synthesized as `frameNumber * 1000000 / 60`
microseconds — independent of every piece of the saved global
configuration (in particular of the configured frame rate), i.e. it
always assumes 60 fps rather than using a source-assigned timestamp. -/
theorem C10_global_submit_timestamp_assumes_60fps (g g2 : GlobalConfig)
    (frameNumber frameType : Int) :
    (instanceSubmitForward g frameNumber frameType).2 =
      frameNumber * 1000000 / 60
    ∧ instanceSubmitForward g frameNumber frameType =
        instanceSubmitForward g2 frameNumber frameType :=
  ⟨rfl, rfl⟩

end MoonlightDecode
